import Mathlib

/-!
Verification of the SAPM trace-ingestion receiver: a shallow embedding of
the batch-span wire model (Jaeger-style batches), the batch-to-trace
translator, the compression codec selector, the tenant-token injector and
the ingress endpoint, together with proofs of the specified properties.

The repository sources provide the receiver's test fixtures and drivers
(`grpcFixture`, `expectedTraceData`, `compressGzip`, `compressZstd`,
`sendSapm`, `TestReception`, `TestAccessTokenPassthrough`); the translator,
codec selector and endpoint handler live outside the provided tree and are
modelled from the specification, constrained by the concrete
fixture/expected-output pairs of the tests.
-/

deriving instance DecidableEq for Except

/-! ## Source data model (Jaeger-style batches) -/

/-- A byte buffer; each element stands for one byte. -/
abbrev Bytes := List Nat

/-- Typed tag value: the closed set of scalar kinds of the wire model
(boolean, integer, floating-point carried as an opaque 64-bit pattern,
string, binary). -/
inductive TagValue where
  | boolV (b : Bool)
  | intV (i : Int)
  | doubleV (bits : Nat)
  | strV (s : String)
  | binaryV (bs : Bytes)
deriving DecidableEq, Repr

/-- One key/value tag. -/
structure KeyValue where
  key : String
  value : TagValue
deriving DecidableEq, Repr

/-- Process description: service name plus typed tags. -/
structure Process where
  serviceName : String
  tags : List KeyValue
deriving DecidableEq, Repr

/-- Relationship kind of a span reference. -/
inductive SpanRefType where
  | childOf
  | followsFrom
deriving DecidableEq, Repr

/-- A reference from one span to another. -/
structure SpanRef where
  traceID : Bytes
  spanID : Bytes
  refType : SpanRefType
deriving DecidableEq, Repr

/-- Source span: identifiers, operation name, start time and duration in
nanoseconds, tags and references. -/
structure Span where
  traceID : Bytes
  spanID : Bytes
  operationName : String
  startTime : Int
  duration : Int
  tags : List KeyValue
  references : List SpanRef
deriving DecidableEq, Repr

/-- A batch: one optional process description plus the spans it produced. -/
structure Batch where
  process : Option Process
  spans : List Span
deriving DecidableEq, Repr

/-! ## Target data model (resources, scopes, spans) -/

/-- Target status code. -/
inductive StatusCode where
  | unset
  | ok
  | error
deriving DecidableEq, Repr

/-- Target span: verbatim identifiers, optional parent, derived
timestamps, status fields and a typed attribute map. -/
structure TargetSpan where
  traceID : Bytes
  spanID : Bytes
  parentSpanID : Option Bytes
  name : String
  startTimestamp : Int
  endTimestamp : Int
  statusCode : StatusCode
  statusMessage : String
  attributes : List KeyValue
deriving DecidableEq, Repr

/-- Target resource: an attribute map. -/
structure Resource where
  attributes : List KeyValue
deriving DecidableEq, Repr

/-- One resource together with the spans of its single scope. -/
structure ResourceSpans where
  resource : Resource
  spans : List TargetSpan
deriving DecidableEq, Repr

/-- The translated trace payload: resources in batch order. -/
abbrev Traces := List ResourceSpans

/-! ## Model translator

Modelled from the spec: the batch-to-trace translator
(`jaegertranslator.ProtoToTraces`, outside the provided sources) per
spec §4.3, constrained by the `grpcFixture`/`expectedTraceData` pair of
the receiver tests. -/

/-- Reserved tag key carrying the span status code string. -/
def otelStatusCode : String := "otel.status_code"

/-- Reserved tag key carrying the span status message. -/
def otelStatusDescription : String := "otel.status_description"

/-- Attribute key that carries the service name on the resource. -/
def serviceNameKey : String := "service.name"

/-- First string value held by a tag with the given key, if any. -/
def findStrTag (k : String) : List KeyValue → Option String
  | [] => none
  | kv :: rest =>
    match kv.value with
    | TagValue.strV s => if kv.key = k then some s else findStrTag k rest
    | _ => findStrTag k rest

/-- Upper-casing character by character. -/
def toUpperChars (s : String) : String := String.mk (s.data.map Char.toUpper)

/-- Case-insensitive interpretation of a status code string against
{"OK", "ERROR"}; anything else leaves the status unset. -/
def parseStatusCode (s : String) : StatusCode :=
  if toUpperChars s = "OK" then StatusCode.ok
  else if toUpperChars s = "ERROR" then StatusCode.error
  else StatusCode.unset

/-- Status code derived from span tags via the reserved status-code key. -/
def statusCodeOfTags (tags : List KeyValue) : StatusCode :=
  match findStrTag otelStatusCode tags with
  | some s => parseStatusCode s
  | none => StatusCode.unset

/-- Status message derived from span tags via the reserved
status-description key. -/
def statusMessageOfTags (tags : List KeyValue) : String :=
  match findStrTag otelStatusDescription tags with
  | some s => s
  | none => ""

/-- Whether a tag is consumed by status derivation: the two reserved
status keys and the boolean "error" tag. -/
def isStatusTag (kv : KeyValue) : Bool :=
  kv.key = otelStatusCode || kv.key = otelStatusDescription ||
    (kv.key = "error" &&
      match kv.value with
      | TagValue.boolV _ => true
      | _ => false)

/-- Span tags that become attributes: everything not consumed by status
derivation, copied with key and typed value intact. -/
def spanAttributes (tags : List KeyValue) : List KeyValue :=
  tags.filter (fun kv => !(isStatusTag kv))

/-- Parent span identifier: the first reference of kind child-of, if any. -/
def findParentSpanID : List SpanRef → Option Bytes
  | [] => none
  | r :: rest =>
    match r.refType with
    | SpanRefType.childOf => some r.spanID
    | _ => findParentSpanID rest

/-- Translate one source span into a target span. -/
def translateSpan (s : Span) : TargetSpan :=
  { traceID := s.traceID
    spanID := s.spanID
    parentSpanID := findParentSpanID s.references
    name := s.operationName
    startTimestamp := s.startTime
    endTimestamp := s.startTime + s.duration
    statusCode := statusCodeOfTags s.tags
    statusMessage := statusMessageOfTags s.tags
    attributes := spanAttributes s.tags }

/-- Translate a batch's process into a resource: the service-name
attribute (when the service name is present) followed by the process
tags, types preserved. -/
def translateProcess : Option Process → Resource
  | none => { attributes := [] }
  | some p =>
    { attributes :=
        (if p.serviceName = "" then []
         else [{ key := serviceNameKey, value := TagValue.strV p.serviceName }]) ++ p.tags }

/-- Translate one batch into one resource with its spans in source order. -/
def translateBatch (b : Batch) : ResourceSpans :=
  { resource := translateProcess b.process
    spans := b.spans.map translateSpan }

/-- Translate a decoded request: one resource per batch, in batch order. -/
def protoToTraces (batches : List Batch) : Traces :=
  batches.map translateBatch

/-! ## Compression codecs and codec selector

Modelled from the spec: the gzip and zstd streams themselves are produced
and consumed by external libraries (`compress/gzip`,
`klauspost/compress/zstd` behind `compressGzip`/`compressZstd` and the
receiver's decompression path); each codec is modelled per §4.1 as a
lossless stream coder — a magic header followed by a run-length coded
payload — and the selector maps the content-encoding token to the
decompressor, rejecting unknown tokens. -/

/-- Error taxonomy of the ingestion path. -/
inductive SapmError where
  | unsupportedEncoding
  | decodeError
  | malformedPayload
deriving DecidableEq, Repr

/-- Run-length encode a byte buffer into (count, byte) pairs. -/
def rleEncode : Bytes → List (Nat × Nat)
  | [] => []
  | b :: rest =>
    match rleEncode rest with
    | [] => [(1, b)]
    | (n, c) :: tl => if c = b then (n + 1, b) :: tl else (1, b) :: (n, c) :: tl

/-- Expand (count, byte) pairs back into a byte buffer. -/
def rleDecode : List (Nat × Nat) → Bytes
  | [] => []
  | (n, b) :: tl => List.replicate n b ++ rleDecode tl

/-- Serialize (count, byte) pairs into a flat byte stream. -/
def pairsFlatten : List (Nat × Nat) → Bytes
  | [] => []
  | (n, b) :: tl => n :: b :: pairsFlatten tl

/-- Read a flat byte stream back into (count, byte) pairs; a truncated
stream fails. -/
def pairsParse : Bytes → Option (List (Nat × Nat))
  | [] => some []
  | [_] => none
  | n :: b :: rest =>
    match pairsParse rest with
    | none => none
    | some tl => some ((n, b) :: tl)

/-- Magic header of the modelled gzip stream. -/
def gzipMagic : Bytes := [0x1f, 0x8b]

/-- Magic header of the modelled zstd stream. -/
def zstdMagic : Bytes := [0x28, 0xb5, 0x2f, 0xfd]

/-- Compress a buffer under the given magic header. -/
def compressWithMagic (magic data : Bytes) : Bytes :=
  magic ++ pairsFlatten (rleEncode data)

/-- Gzip-compress a request body (model of the test helper
`compressGzip`). -/
def compressGzip (reqBytes : Bytes) : Bytes :=
  compressWithMagic gzipMagic reqBytes

/-- Zstd-compress a request body (model of the test helper
`compressZstd`). -/
def compressZstd (reqBytes : Bytes) : Bytes :=
  compressWithMagic zstdMagic reqBytes

/-- Decompress a stream that must start with the given magic header;
wrong header or truncated payload is a decode error. -/
def decompressWithMagic (magic data : Bytes) : Except SapmError Bytes :=
  if data.take magic.length = magic then
    match pairsParse (data.drop magic.length) with
    | none => Except.error SapmError.decodeError
    | some ps => Except.ok (rleDecode ps)
  else Except.error SapmError.decodeError

/-- Codec selector: map the content-encoding token to a decompression of
the body; empty means passthrough, anything but gzip/zstd is an
unsupported encoding. -/
def decompressBody (encoding : String) (body : Bytes) : Except SapmError Bytes :=
  if encoding = "" then Except.ok body
  else if encoding = "gzip" then decompressWithMagic gzipMagic body
  else if encoding = "zstd" then decompressWithMagic zstdMagic body
  else Except.error SapmError.unsupportedEncoding

/-! ## Wire format of a batch request

Modelled from the spec: the request body's serialization
(`PostSpansRequest.Marshal` and the receiver-side deserialization, both in
the external sapm-proto library) per §4.2 — a fixed schema with
all-or-nothing decoding — realized as a length-prefixed encoding over the
batch model. -/

/-- Encode one unbounded number as one model byte. -/
def encNat (n : Nat) : Bytes := [n]

/-- Read one number from the stream. -/
def decNat : Bytes → Option (Nat × Bytes)
  | [] => none
  | n :: r => some (n, r)

/-- Encode a signed integer: sign marker then magnitude. -/
def encInt : Int → Bytes
  | Int.ofNat n => [0, n]
  | Int.negSucc n => [1, n]

/-- Read a signed integer from the stream. -/
def decInt : Bytes → Option (Int × Bytes)
  | 0 :: n :: r => some (Int.ofNat n, r)
  | 1 :: n :: r => some (Int.negSucc n, r)
  | _ => none

/-- Encode a list: length prefix then the encoded elements. -/
def encList (enc : α → Bytes) (l : List α) : Bytes :=
  encNat l.length ++ (l.map enc).flatten

/-- Read exactly `n` elements with the given element reader. -/
def decListN (dec : Bytes → Option (α × Bytes)) : Nat → Bytes → Option (List α × Bytes)
  | 0, r => some ([], r)
  | n + 1, r =>
    match dec r with
    | none => none
    | some (a, r1) =>
      match decListN dec n r1 with
      | none => none
      | some (as, r2) => some (a :: as, r2)

/-- Read a length-prefixed list with the given element reader. -/
def decList (dec : Bytes → Option (α × Bytes)) (r : Bytes) : Option (List α × Bytes) :=
  match decNat r with
  | none => none
  | some (n, r1) => decListN dec n r1

/-- Encode a character as its code point. -/
def encChar (c : Char) : Bytes := [c.toNat]

/-- Read one character from the stream. -/
def decChar : Bytes → Option (Char × Bytes)
  | [] => none
  | n :: r => some (Char.ofNat n, r)

/-- Encode a string as a length-prefixed character list. -/
def encString (s : String) : Bytes := encList encChar s.data

/-- Read a string from the stream. -/
def decString (r : Bytes) : Option (String × Bytes) :=
  match decList decChar r with
  | none => none
  | some (cs, rest) => some (String.mk cs, rest)

/-- Encode a raw byte field (identifiers, binary tag values). -/
def encBytes (bs : Bytes) : Bytes := encList (fun b => [b]) bs

/-- Read a raw byte field. -/
def decBytes (r : Bytes) : Option (Bytes × Bytes) := decList decNat r

/-- Encode a typed tag value with its kind marker. -/
def encTagValue : TagValue → Bytes
  | TagValue.boolV b => [0, cond b 1 0]
  | TagValue.intV i => 1 :: encInt i
  | TagValue.doubleV bits => [2, bits]
  | TagValue.strV s => 3 :: encString s
  | TagValue.binaryV bs => 4 :: encBytes bs

/-- Read a typed tag value, validating the kind marker. -/
def decTagValue : Bytes → Option (TagValue × Bytes)
  | 0 :: b :: r => some (TagValue.boolV (b != 0), r)
  | 1 :: r =>
    match decInt r with
    | none => none
    | some (i, rest) => some (TagValue.intV i, rest)
  | 2 :: bits :: r => some (TagValue.doubleV bits, r)
  | 3 :: r =>
    match decString r with
    | none => none
    | some (s, rest) => some (TagValue.strV s, rest)
  | 4 :: r =>
    match decBytes r with
    | none => none
    | some (bs, rest) => some (TagValue.binaryV bs, rest)
  | _ => none

/-- Encode one key/value tag. -/
def encKeyValue (kv : KeyValue) : Bytes :=
  encString kv.key ++ encTagValue kv.value

/-- Read one key/value tag. -/
def decKeyValue (r : Bytes) : Option (KeyValue × Bytes) :=
  match decString r with
  | none => none
  | some (k, r1) =>
    match decTagValue r1 with
    | none => none
    | some (v, r2) => some ({ key := k, value := v }, r2)

/-- Encode a process description. -/
def encProcess (p : Process) : Bytes :=
  encString p.serviceName ++ encList encKeyValue p.tags

/-- Read a process description. -/
def decProcess (r : Bytes) : Option (Process × Bytes) :=
  match decString r with
  | none => none
  | some (name, r1) =>
    match decList decKeyValue r1 with
    | none => none
    | some (tags, r2) => some ({ serviceName := name, tags := tags }, r2)

/-- Encode a reference kind. -/
def encSpanRefType : SpanRefType → Bytes
  | SpanRefType.childOf => [0]
  | SpanRefType.followsFrom => [1]

/-- Read a reference kind. -/
def decSpanRefType : Bytes → Option (SpanRefType × Bytes)
  | 0 :: r => some (SpanRefType.childOf, r)
  | 1 :: r => some (SpanRefType.followsFrom, r)
  | _ => none

/-- Encode a span reference. -/
def encSpanRef (ref : SpanRef) : Bytes :=
  encBytes ref.traceID ++ encBytes ref.spanID ++ encSpanRefType ref.refType

/-- Read a span reference. -/
def decSpanRef (r : Bytes) : Option (SpanRef × Bytes) :=
  match decBytes r with
  | none => none
  | some (tid, r1) =>
    match decBytes r1 with
    | none => none
    | some (sid, r2) =>
      match decSpanRefType r2 with
      | none => none
      | some (rt, r3) => some ({ traceID := tid, spanID := sid, refType := rt }, r3)

/-- Encode a source span. -/
def encSpan (s : Span) : Bytes :=
  encBytes s.traceID ++ encBytes s.spanID ++ encString s.operationName ++
    encInt s.startTime ++ encInt s.duration ++
    encList encKeyValue s.tags ++ encList encSpanRef s.references

/-- Read a source span. -/
def decSpan (r : Bytes) : Option (Span × Bytes) :=
  match decBytes r with
  | none => none
  | some (tid, r1) =>
    match decBytes r1 with
    | none => none
    | some (sid, r2) =>
      match decString r2 with
      | none => none
      | some (name, r3) =>
        match decInt r3 with
        | none => none
        | some (st, r4) =>
          match decInt r4 with
          | none => none
          | some (dur, r5) =>
            match decList decKeyValue r5 with
            | none => none
            | some (tags, r6) =>
              match decList decSpanRef r6 with
              | none => none
              | some (refs, r7) =>
                some ({ traceID := tid, spanID := sid, operationName := name,
                        startTime := st, duration := dur, tags := tags,
                        references := refs }, r7)

/-- Encode an optional process with a presence marker. -/
def encOptProcess : Option Process → Bytes
  | none => [0]
  | some p => 1 :: encProcess p

/-- Read an optional process. -/
def decOptProcess : Bytes → Option (Option Process × Bytes)
  | 0 :: r => some (none, r)
  | 1 :: r =>
    match decProcess r with
    | none => none
    | some (p, rest) => some (some p, rest)
  | _ => none

/-- Encode one batch. -/
def encBatch (b : Batch) : Bytes :=
  encOptProcess b.process ++ encList encSpan b.spans

/-- Read one batch. -/
def decBatch (r : Bytes) : Option (Batch × Bytes) :=
  match decOptProcess r with
  | none => none
  | some (p, r1) =>
    match decList decSpan r1 with
    | none => none
    | some (spans, r2) => some ({ process := p, spans := spans }, r2)

/-- Marshal a batch request into its wire body. -/
def encodeBatches (bs : List Batch) : Bytes := encList encBatch bs

/-- Batch decoder: all-or-nothing deserialization of a wire body; any
structural violation, including trailing garbage, is a malformed
payload. -/
def decodeBatches (body : Bytes) : Except SapmError (List Batch) :=
  match decList decBatch body with
  | some (bs, []) => Except.ok bs
  | _ => Except.error SapmError.malformedPayload

/-! ## Tenant attribute injector and ingress endpoint

Modelled from the spec: the receiver's HTTP handler and access-token
injection (the receiver implementation outside the provided sources) per
§4.4/§4.5, constrained by `TestReception` and
`TestAccessTokenPassthrough`. The consumer of the tests is a sink that
accepts every payload, so a successfully forwarded payload yields a 200
response; the second component of the handler's result is the payload
handed to the consumer (`none` when nothing was forwarded). -/

/-- Resource attribute key that carries the tenant token. -/
def accessTokenKey : String := "com.splunk.signalfx.access_token"

/-- Stamp the tenant token onto every resource of the payload. -/
def injectAccessTokenTraces (token : String) (tr : Traces) : Traces :=
  tr.map (fun rs =>
    { rs with
        resource :=
          { attributes :=
              rs.resource.attributes ++
                [{ key := accessTokenKey, value := TagValue.strV token }] } })

/-- Receiver configuration: the token-passthrough flag. -/
structure Config where
  accessTokenPassthrough : Bool
deriving DecidableEq, Repr

/-- Tenant attribute injector: stamp the token on every resource exactly
when passthrough is enabled and the token is non-empty; otherwise leave
the payload untouched. -/
def applyTokenPassthrough (cfg : Config) (token : String) (tr : Traces) : Traces :=
  if cfg.accessTokenPassthrough && token ≠ "" then
    injectAccessTokenTraces token tr
  else tr

/-- Fixed endpoint path of the trace API. -/
def traceEndpointV2 : String := "/v2/trace"

/-- Expected wire media type of the request body. -/
def contentTypeHeaderValue : String := "application/x-protobuf"

/-- The parts of an inbound HTTP request the endpoint inspects. -/
structure HTTPRequest where
  method : String
  path : String
  contentType : String
  contentEncoding : String
  accessToken : String
  body : Bytes
deriving DecidableEq, Repr

/-- Ingress endpoint: validate method, path and media type, decompress
per the content-encoding header, decode the batches, translate, inject
the tenant token, forward to the consumer and answer. Returns the HTTP
status together with the payload forwarded to the consumer (`none` when
nothing was forwarded). -/
def handleRequest (cfg : Config) (req : HTTPRequest) : Nat × Option Traces :=
  if req.method ≠ "POST" then (405, none)
  else if req.path ≠ traceEndpointV2 then (404, none)
  else if req.contentType ≠ contentTypeHeaderValue then (415, none)
  else
    match decompressBody req.contentEncoding req.body with
    | Except.error _ => (400, none)
    | Except.ok bytes =>
      match decodeBatches bytes with
      | Except.error _ => (400, none)
      | Except.ok batches =>
        (200, some (applyTokenPassthrough cfg req.accessToken (protoToTraces batches)))

/-- A well-formed POST request to the trace endpoint with the given
encoding, token and body (the request `sendSapm` builds). -/
def mkSapmRequest (encoding token : String) (body : Bytes) : HTTPRequest :=
  { method := "POST"
    path := traceEndpointV2
    contentType := contentTypeHeaderValue
    contentEncoding := encoding
    accessToken := token
    body := body }

/-! ## Test fixtures (from the receiver test sources) -/

/-- The fixture trace identifier (16 bytes). -/
def fixtureTraceID : Bytes :=
  [0xF1, 0xF2, 0xF3, 0xF4, 0xF5, 0xF6, 0xF7, 0xF8,
   0xF9, 0xFA, 0xFB, 0xFC, 0xFD, 0xFE, 0xFF, 0x80]

/-- The fixture parent span identifier (8 bytes). -/
def fixtureParentSpanID : Bytes := [0x1F, 0x1E, 0x1D, 0x1C, 0x1B, 0x1A, 0x19, 0x18]

/-- The fixture child span identifier (8 bytes). -/
def fixtureChildSpanID : Bytes := [0xAF, 0xAE, 0xAD, 0xAC, 0xAB, 0xAA, 0xA9, 0xA8]

/-- Ten minutes in nanoseconds. -/
def tenMinutes : Int := 600000000000

/-- Two seconds in nanoseconds. -/
def twoSeconds : Int := 2000000000

/-- The test's fixed start instant, `time.Unix(1542158650, 536343000)`,
in nanoseconds. -/
def testNow : Int := 1542158650536343000

/-- The wire fixture of the receiver tests: one batch, process "issaTest"
with one boolean, one string and one integer tag, and two spans — a child
referencing its parent as child-of, both carrying the reserved status
tags and a boolean error tag. -/
def grpcFixture (t1 : Int) : Batch :=
  { process := some
      { serviceName := "issaTest"
        tags :=
          [{ key := "bool", value := TagValue.boolV true },
           { key := "string", value := TagValue.strV "yes" },
           { key := "int64", value := TagValue.intV 10000000 }] }
    spans :=
      [{ traceID := fixtureTraceID
         spanID := fixtureChildSpanID
         operationName := "DBSearch"
         startTime := t1
         duration := tenMinutes
         tags :=
           [{ key := otelStatusDescription, value := TagValue.strV "Stale indices" },
            { key := otelStatusCode, value := TagValue.strV "ERROR" },
            { key := "error", value := TagValue.boolV true }]
         references :=
           [{ traceID := fixtureTraceID
              spanID := fixtureParentSpanID
              refType := SpanRefType.childOf }] },
       { traceID := fixtureTraceID
         spanID := fixtureParentSpanID
         operationName := "ProxyFetch"
         startTime := t1 + tenMinutes
         duration := twoSeconds
         tags :=
           [{ key := otelStatusDescription, value := TagValue.strV "Frontend crash" },
            { key := otelStatusCode, value := TagValue.strV "ERROR" },
            { key := "error", value := TagValue.boolV true }]
         references := [] }] }

/-- The trace payload the receiver tests expect for the fixture: one
resource named "issaTest" carrying the process tags, two spans in source
order with the child linked to its parent and error status on both. -/
def expectedTraceData (t1 t2 t3 : Int) : Traces :=
  [{ resource :=
       { attributes :=
           [{ key := serviceNameKey, value := TagValue.strV "issaTest" },
            { key := "bool", value := TagValue.boolV true },
            { key := "string", value := TagValue.strV "yes" },
            { key := "int64", value := TagValue.intV 10000000 }] }
     spans :=
       [{ traceID := fixtureTraceID
          spanID := fixtureChildSpanID
          parentSpanID := some fixtureParentSpanID
          name := "DBSearch"
          startTimestamp := t1
          endTimestamp := t2
          statusCode := StatusCode.error
          statusMessage := "Stale indices"
          attributes := [] },
        { traceID := fixtureTraceID
          spanID := fixtureParentSpanID
          parentSpanID := none
          name := "ProxyFetch"
          startTimestamp := t2
          endTimestamp := t3
          statusCode := StatusCode.error
          statusMessage := "Frontend crash"
          attributes := [] }] }]

/-- A concrete span with negative duration (used as a witness input). -/
def negDurationSpan : Span :=
  { traceID := [1]
    spanID := [2]
    operationName := "neg"
    startTime := 100
    duration := -5
    tags := []
    references := [] }

/-- A concrete span carrying only status tags (used as a witness input):
the two reserved status keys and a boolean error tag. -/
def statusOnlySpan : Span :=
  { traceID := fixtureTraceID
    spanID := fixtureChildSpanID
    operationName := "DBSearch"
    startTime := 0
    duration := 1
    tags :=
      [{ key := otelStatusDescription, value := TagValue.strV "Stale indices" },
       { key := otelStatusCode, value := TagValue.strV "Error" },
       { key := "error", value := TagValue.boolV true }]
    references :=
      [{ traceID := fixtureTraceID
         spanID := fixtureParentSpanID
         refType := SpanRefType.childOf }] }

/-- A concrete span with no tags and no references (used as a witness
input). -/
def bareSpan : Span :=
  { traceID := [3]
    spanID := [4]
    operationName := "bare"
    startTime := 7
    duration := 2
    tags := [{ key := "http.status", value := TagValue.intV 200 }]
    references := [] }

/-- The default resource-spans value (used only to take the head of a
concretely computed payload). -/
def emptyResourceSpans : ResourceSpans :=
  { resource := { attributes := [] }, spans := [] }

/-- The fixture's process (used as a witness input). -/
def fixtureProcess : Process :=
  { serviceName := "issaTest"
    tags :=
      [{ key := "bool", value := TagValue.boolV true },
       { key := "string", value := TagValue.strV "yes" },
       { key := "int64", value := TagValue.intV 10000000 }] }

/-! ## Helper lemmas: codec and wire-format round-trips -/

/-- Reading back a flattened pair stream recovers the pairs. -/
theorem pairsParse_flatten (ps : List (Nat × Nat)) :
    pairsParse (pairsFlatten ps) = some ps := by
  induction ps with
  | nil => rfl
  | cons p tl ih =>
    obtain ⟨n, b⟩ := p
    simp [pairsFlatten, pairsParse, ih]

/-- Expanding a run-length coding recovers the original buffer. -/
theorem rleDecode_encode (l : Bytes) : rleDecode (rleEncode l) = l := by
  induction l with
  | nil => rfl
  | cons b rest ih =>
    cases h : rleEncode rest with
    | nil =>
      rw [h] at ih
      simp only [rleDecode] at ih
      simp only [rleEncode, h, rleDecode, List.replicate, List.append_nil]
      rw [← ih]
    | cons p tl =>
      obtain ⟨n, c⟩ := p
      rw [h] at ih
      simp only [rleDecode] at ih
      by_cases hc : c = b
      · subst hc
        simp only [rleEncode, h, if_pos rfl, rleDecode, List.replicate_succ,
          List.cons_append]
        rw [ih]
      · simp only [rleEncode, h, if_neg hc, rleDecode, List.replicate_succ,
          List.replicate_zero, List.cons_append, List.nil_append]
        rw [ih]

/-- Decompressing a stream compressed under the same magic header
recovers the original buffer. -/
theorem decompressWithMagic_compress (magic data : Bytes) :
    decompressWithMagic magic (compressWithMagic magic data) = Except.ok data := by
  simp [decompressWithMagic, compressWithMagic, List.take_left, List.drop_left,
    pairsParse_flatten, rleDecode_encode]

/-- Fully valid code points survive `Char.ofNat`. -/
theorem char_toNat_ofNat (n : Nat) (h : n.isValidChar) : (Char.ofNat n).toNat = n := by
  unfold Char.ofNat Char.toNat
  split
  · rfl
  · contradiction

/-- Upper-casing a character is idempotent. -/
theorem char_toUpper_idem (c : Char) : c.toUpper.toUpper = c.toUpper := by
  unfold Char.toUpper
  simp only []
  by_cases h : c.toNat ≥ 97 ∧ c.toNat ≤ 122
  · rw [if_pos h]
    have hv : (c.toNat - 32).isValidChar := by
      unfold Nat.isValidChar
      left
      omega
    rw [char_toNat_ofNat _ hv, if_neg (by omega)]
  · rw [if_neg h, if_neg h]

/-- Upper-casing a string is idempotent. -/
theorem toUpperChars_idem (s : String) :
    toUpperChars (toUpperChars s) = toUpperChars s := by
  unfold toUpperChars
  rw [List.map_map]
  exact congrArg String.mk (List.map_congr_left fun c _ => char_toUpper_idem c)

/-- Reading one number undoes encoding one number. -/
theorem decNat_enc (n : Nat) (rest : Bytes) : decNat (encNat n ++ rest) = some (n, rest) := rfl

/-- Reading an integer undoes encoding an integer. -/
theorem decInt_enc (i : Int) (rest : Bytes) : decInt (encInt i ++ rest) = some (i, rest) := by
  cases i <;> rfl

/-- Reading `l.length` elements undoes encoding the elements of `l`. -/
theorem decListN_enc {α : Type} (dec : Bytes → Option (α × Bytes)) (enc : α → Bytes)
    (H : ∀ a rest, dec (enc a ++ rest) = some (a, rest)) :
    ∀ (l : List α) (rest : Bytes),
      decListN dec l.length ((l.map enc).flatten ++ rest) = some (l, rest) := by
  intro l
  induction l with
  | nil => intro rest; simp [decListN]
  | cons a l ih =>
    intro rest
    simp only [List.map_cons, List.flatten_cons, List.length_cons, List.append_assoc]
    simp [decListN, H, ih]

/-- Reading a length-prefixed list undoes encoding the list. -/
theorem decList_enc {α : Type} (dec : Bytes → Option (α × Bytes)) (enc : α → Bytes)
    (H : ∀ a rest, dec (enc a ++ rest) = some (a, rest)) (l : List α) (rest : Bytes) :
    decList dec (encList enc l ++ rest) = some (l, rest) := by
  unfold decList encList encNat
  simp only [List.cons_append, List.nil_append, decNat]
  exact decListN_enc dec enc H l rest

/-- Reading one character undoes encoding one character. -/
theorem decChar_enc (c : Char) (rest : Bytes) : decChar (encChar c ++ rest) = some (c, rest) := by
  have hv : c.toNat.isValidChar := c.valid
  simp only [encChar, decChar, List.cons_append, List.nil_append]
  unfold Char.ofNat Char.toNat
  split
  · rfl
  · exact absurd hv (by assumption)

/-- Reading a string undoes encoding a string. -/
theorem decString_enc (s : String) (rest : Bytes) :
    decString (encString s ++ rest) = some (s, rest) := by
  unfold decString encString
  rw [decList_enc decChar encChar decChar_enc]

/-- Reading a raw byte field undoes encoding it. -/
theorem decBytes_enc (bs rest : Bytes) : decBytes (encBytes bs ++ rest) = some (bs, rest) :=
  decList_enc decNat (fun b => [b]) (fun _ _ => rfl) bs rest

/-- Reading a typed tag value undoes encoding it. -/
theorem decTagValue_enc (v : TagValue) (rest : Bytes) :
    decTagValue (encTagValue v ++ rest) = some (v, rest) := by
  cases v with
  | boolV b => cases b <;> rfl
  | intV i => cases i <;> rfl
  | doubleV bits => rfl
  | strV s => simp [encTagValue, decTagValue, decString_enc]
  | binaryV bs => simp [encTagValue, decTagValue, decBytes_enc]

/-- Reading a tag undoes encoding a tag. -/
theorem decKeyValue_enc (kv : KeyValue) (rest : Bytes) :
    decKeyValue (encKeyValue kv ++ rest) = some (kv, rest) := by
  simp [decKeyValue, encKeyValue, List.append_assoc, decString_enc, decTagValue_enc]

/-- Reading a process undoes encoding a process. -/
theorem decProcess_enc (p : Process) (rest : Bytes) :
    decProcess (encProcess p ++ rest) = some (p, rest) := by
  simp [decProcess, encProcess, List.append_assoc, decString_enc,
    decList_enc decKeyValue encKeyValue decKeyValue_enc]

/-- Reading a reference kind undoes encoding it. -/
theorem decSpanRefType_enc (rt : SpanRefType) (rest : Bytes) :
    decSpanRefType (encSpanRefType rt ++ rest) = some (rt, rest) := by
  cases rt <;> rfl

/-- Reading a span reference undoes encoding it. -/
theorem decSpanRef_enc (ref : SpanRef) (rest : Bytes) :
    decSpanRef (encSpanRef ref ++ rest) = some (ref, rest) := by
  simp [decSpanRef, encSpanRef, List.append_assoc, decBytes_enc, decSpanRefType_enc]

/-- Reading a span undoes encoding a span. -/
theorem decSpan_enc (s : Span) (rest : Bytes) :
    decSpan (encSpan s ++ rest) = some (s, rest) := by
  simp [decSpan, encSpan, List.append_assoc, decBytes_enc, decString_enc, decInt_enc,
    decList_enc decKeyValue encKeyValue decKeyValue_enc,
    decList_enc decSpanRef encSpanRef decSpanRef_enc]

/-- Reading an optional process undoes encoding it. -/
theorem decOptProcess_enc (p : Option Process) (rest : Bytes) :
    decOptProcess (encOptProcess p ++ rest) = some (p, rest) := by
  cases p with
  | none => rfl
  | some p => simp [encOptProcess, decOptProcess, decProcess_enc]

/-- Reading a batch undoes encoding a batch. -/
theorem decBatch_enc (b : Batch) (rest : Bytes) :
    decBatch (encBatch b ++ rest) = some (b, rest) := by
  simp [decBatch, encBatch, List.append_assoc, decOptProcess_enc,
    decList_enc decSpan encSpan decSpan_enc]

/-- The batch decoder inverts the request marshalling. -/
theorem decodeBatches_enc (bs : List Batch) :
    decodeBatches (encodeBatches bs) = Except.ok bs := by
  unfold decodeBatches encodeBatches
  have h := decList_enc decBatch encBatch decBatch_enc bs []
  rw [List.append_nil] at h
  rw [h]

/-! ## Helper lemmas: translator -/

/-- `findStrTag` ignores a boolean-valued tag wherever it sits. -/
theorem findStrTag_boolTag (k key2 : String) (b : Bool) (pre post : List KeyValue) :
    findStrTag k (pre ++ { key := key2, value := TagValue.boolV b } :: post) =
      findStrTag k (pre ++ post) := by
  induction pre with
  | nil => simp [findStrTag]
  | cons a pre ih =>
    simp only [List.cons_append, findStrTag]
    cases a.value <;> simp [ih]

/-- The parent identifier is the span identifier of the first child-of
reference (and nothing else). -/
theorem findParentSpanID_eq_filter (refs : List SpanRef) :
    findParentSpanID refs =
      ((refs.filter (fun r => r.refType = SpanRefType.childOf)).head?).map SpanRef.spanID := by
  induction refs with
  | nil => rfl
  | cons r rest ih =>
    cases h : r.refType with
    | childOf => simp [findParentSpanID, List.filter_cons, h]
    | followsFrom => simp [findParentSpanID, List.filter_cons, h, ih]

/-! ## Claim theorems -/

/-- C1: a POST request with no Content-Encoding carrying the fixture
batch (service "issaTest" with boolean/string/integer tags, two spans
where the second is referenced by the first as child-of, both carrying
the reserved status tags) is translated into exactly the expected
payload — one resource with the service name and typed process tags, two
spans in source order with the parent linkage and status fields — which
is forwarded to the consumer, and the endpoint answers 200. -/
theorem claim_C1_reception :
    handleRequest { accessTokenPassthrough := false }
        (mkSapmRequest "" "" (encodeBatches [grpcFixture testNow])) =
      (200, some (expectedTraceData testNow (testNow + tenMinutes)
        (testNow + tenMinutes + twoSeconds))) := by
  decide

/-- C4: translating a batch and re-extracting the trace and span
identifiers of each target span yields exactly the source span's
identifiers, byte for byte, in order. -/
theorem claim_C4_identifier_roundtrip (b : Batch) :
    (translateBatch b).spans.map TargetSpan.traceID = b.spans.map Span.traceID
    ∧ (translateBatch b).spans.map TargetSpan.spanID = b.spans.map Span.spanID := by
  constructor <;>
    · simp only [translateBatch, List.map_map]
      exact List.map_congr_left fun s _ => rfl

/-- C6: the target span's start timestamp is the source start time, its
end timestamp is start time plus duration, and a negative duration is
passed through, yielding an end timestamp earlier than the start. -/
theorem claim_C6_timestamps (s : Span) :
    (translateSpan s).startTimestamp = s.startTime
    ∧ (translateSpan s).endTimestamp = s.startTime + s.duration
    ∧ (s.duration < 0 →
        (translateSpan s).endTimestamp < (translateSpan s).startTimestamp) := by
  refine ⟨rfl, rfl, ?_⟩
  intro h
  simp only [translateSpan]
  omega

/-- Witness for C6 at a concrete span with negative duration. -/
theorem claim_C6_timestamps_witness :
    (translateSpan negDurationSpan).endTimestamp <
      (translateSpan negDurationSpan).startTimestamp :=
  (claim_C6_timestamps negDurationSpan).2.2 (by decide)

/-- C7: compressing any byte buffer with the gzip or zstd codec and
decompressing through the codec selector at the same content-encoding
token returns exactly the original bytes. -/
theorem claim_C7_codec_roundtrip (data : Bytes) :
    decompressBody "gzip" (compressGzip data) = Except.ok data
    ∧ decompressBody "zstd" (compressZstd data) = Except.ok data := by
  constructor
  · unfold decompressBody compressGzip
    rw [if_neg (by decide), if_pos rfl]
    exact decompressWithMagic_compress _ _
  · unfold decompressBody compressZstd
    rw [if_neg (by decide), if_neg (by decide), if_pos rfl]
    exact decompressWithMagic_compress _ _

/-- C2: status fields are derived deterministically from the two
reserved tag keys — the status-description tag supplies the message, the
status-code tag supplies the code by case-insensitive comparison against
{"OK", "ERROR"}; when both reserved tags are absent the status is unset;
and a boolean "error" tag never changes the status fields derived from
the reserved keys. -/
theorem claim_C2_status_derivation (s : Span) :
    (∀ m, findStrTag otelStatusDescription s.tags = some m →
        (translateSpan s).statusMessage = m)
    ∧ (∀ c, findStrTag otelStatusCode s.tags = some c →
        (translateSpan s).statusCode = parseStatusCode c
        ∧ parseStatusCode c = parseStatusCode (toUpperChars c)
        ∧ (parseStatusCode c = StatusCode.ok ↔ toUpperChars c = "OK")
        ∧ (parseStatusCode c = StatusCode.error ↔ toUpperChars c = "ERROR"))
    ∧ (findStrTag otelStatusDescription s.tags = none →
        findStrTag otelStatusCode s.tags = none →
        (translateSpan s).statusCode = StatusCode.unset
        ∧ (translateSpan s).statusMessage = "")
    ∧ (∀ b pre post,
        s.tags = pre ++ { key := "error", value := TagValue.boolV b } :: post →
        (translateSpan s).statusCode =
            (translateSpan { s with tags := pre ++ post }).statusCode
        ∧ (translateSpan s).statusMessage =
            (translateSpan { s with tags := pre ++ post }).statusMessage) := by
  refine ⟨?_, ?_, ?_, ?_⟩
  · intro m hm
    simp [translateSpan, statusMessageOfTags, hm]
  · intro c hc
    refine ⟨by simp [translateSpan, statusCodeOfTags, hc], ?_, ?_, ?_⟩
    · unfold parseStatusCode
      rw [toUpperChars_idem]
    · unfold parseStatusCode
      by_cases h1 : toUpperChars c = "OK"
      · simp [h1]
      · by_cases h2 : toUpperChars c = "ERROR" <;> simp [h1, h2]
    · unfold parseStatusCode
      by_cases h1 : toUpperChars c = "OK"
      · simp [h1]
      · by_cases h2 : toUpperChars c = "ERROR" <;> simp [h1, h2]
  · intro hd hc
    constructor
    · simp [translateSpan, statusCodeOfTags, hc]
    · simp [translateSpan, statusMessageOfTags, hd]
  · intro b pre post htags
    constructor
    · simp [translateSpan, statusCodeOfTags, htags, findStrTag_boolTag]
    · simp [translateSpan, statusMessageOfTags, htags, findStrTag_boolTag]

/-- Witness for C2 at the fixture-like span: the reserved tags yield the
error status with its message, case-insensitively, and dropping the
boolean error tag leaves the status unchanged. -/
theorem claim_C2_status_derivation_witness :
    (translateSpan statusOnlySpan).statusMessage = "Stale indices"
    ∧ (translateSpan statusOnlySpan).statusCode = parseStatusCode "Error"
    ∧ (parseStatusCode "Error" = StatusCode.error ↔ toUpperChars "Error" = "ERROR")
    ∧ (translateSpan statusOnlySpan).statusCode =
        (translateSpan { statusOnlySpan with
          tags := statusOnlySpan.tags.take 2 ++ [] }).statusCode := by
  have h := claim_C2_status_derivation statusOnlySpan
  refine ⟨h.1 "Stale indices" (by decide), ?_, ?_, ?_⟩
  · exact (h.2.1 "Error" (by decide)).1
  · exact (h.2.1 "Error" (by decide)).2.2.2
  · exact (h.2.2.2 true (statusOnlySpan.tags.take 2) [] (by decide)).1

/-- C3: the target span's parent is the span identifier of the first
child-of reference; references of other kinds are ignored; with exactly
one child-of reference the parent equals that reference's span
identifier, and with no references the span is a root span. -/
theorem claim_C3_parent_linkage (s : Span) :
    (translateSpan s).parentSpanID =
        ((s.references.filter (fun r => r.refType = SpanRefType.childOf)).head?).map
          SpanRef.spanID
    ∧ (∀ ref, s.references = [ref] → ref.refType = SpanRefType.childOf →
        (translateSpan s).parentSpanID = some ref.spanID)
    ∧ (s.references = [] → (translateSpan s).parentSpanID = none) := by
  refine ⟨?_, ?_, ?_⟩
  · simp only [translateSpan]
    exact findParentSpanID_eq_filter s.references
  · intro ref href hkind
    simp [translateSpan, href, findParentSpanID, hkind]
  · intro href
    simp [translateSpan, href, findParentSpanID]

/-- Witness for C3 at concrete spans: the fixture-like span with one
child-of reference gets that parent; the span with no references is a
root span. -/
theorem claim_C3_parent_linkage_witness :
    (translateSpan statusOnlySpan).parentSpanID = some fixtureParentSpanID
    ∧ (translateSpan bareSpan).parentSpanID = none := by
  constructor
  · exact (claim_C3_parent_linkage statusOnlySpan).2.1
      { traceID := fixtureTraceID
        spanID := fixtureParentSpanID
        refType := SpanRefType.childOf } (by decide) (by decide)
  · exact (claim_C3_parent_linkage bareSpan).2.2 (by decide)

/-- C5: every process tag and every non-consumed span tag reappears as a
translated attribute with the identical key and identically typed value,
and every translated span attribute is literally one of the source tags
— no implicit conversion to string or any other type. -/
theorem claim_C5_type_fidelity (p : Process) (s : Span) (kv : KeyValue) :
    (kv ∈ p.tags → kv ∈ (translateProcess (some p)).attributes)
    ∧ (kv ∈ s.tags → isStatusTag kv = false → kv ∈ (translateSpan s).attributes)
    ∧ ((translateSpan s).attributes ⊆ s.tags) := by
  refine ⟨?_, ?_, ?_⟩
  · intro h
    simp only [translateProcess]
    exact List.mem_append_right _ h
  · intro h hns
    simp only [translateSpan, spanAttributes]
    exact List.mem_filter.mpr ⟨h, by simp [hns]⟩
  · simp only [translateSpan, spanAttributes]
    exact fun x hx => (List.mem_filter.mp hx).1

/-- Witness for C5 at the fixture process and a concrete span: the
boolean process tag and the integer span tag reappear unchanged. -/
theorem claim_C5_type_fidelity_witness :
    { key := "bool", value := TagValue.boolV true } ∈
        (translateProcess (some fixtureProcess)).attributes
    ∧ { key := "http.status", value := TagValue.intV 200 } ∈
        (translateSpan bareSpan).attributes := by
  have h := claim_C5_type_fidelity fixtureProcess bareSpan
  constructor
  · exact (h { key := "bool", value := TagValue.boolV true }).1 (by decide)
  · exact (claim_C5_type_fidelity fixtureProcess bareSpan
      { key := "http.status", value := TagValue.intV 200 }).2.1 (by decide) (by decide)

/-- C8: tenant-token injection is all-or-nothing per request — with
passthrough enabled and a non-empty token every resource of the payload
carries the token attribute with exactly the header's value; with
passthrough disabled or an empty token the payload is left untouched,
and (when no source process already uses the key) the attribute key is
absent from every resource. -/
theorem claim_C8_token_all_or_nothing (cfg : Config) (token : String) (bs : List Batch) :
    (cfg.accessTokenPassthrough = true → token ≠ "" →
      ∀ rs ∈ applyTokenPassthrough cfg token (protoToTraces bs),
        { key := accessTokenKey, value := TagValue.strV token } ∈ rs.resource.attributes)
    ∧ ((cfg.accessTokenPassthrough = false ∨ token = "") →
        applyTokenPassthrough cfg token (protoToTraces bs) = protoToTraces bs
        ∧ ((∀ b ∈ bs, ∀ p, b.process = some p → ∀ kv ∈ p.tags, kv.key ≠ accessTokenKey) →
            ∀ rs ∈ applyTokenPassthrough cfg token (protoToTraces bs),
              ∀ kv ∈ rs.resource.attributes, kv.key ≠ accessTokenKey)) := by
  constructor
  · intro hp ht rs hrs
    unfold applyTokenPassthrough at hrs
    rw [if_pos (by simp [hp, ht])] at hrs
    unfold injectAccessTokenTraces at hrs
    obtain ⟨rs0, -, rfl⟩ := List.mem_map.mp hrs
    simp
  · intro hoff
    have huntouched :
        applyTokenPassthrough cfg token (protoToTraces bs) = protoToTraces bs := by
      unfold applyTokenPassthrough
      rcases hoff with hp | ht
      · rw [if_neg (by simp [hp])]
      · rw [if_neg (by simp [ht])]
    refine ⟨huntouched, ?_⟩
    intro hclean rs hrs kv hkv
    rw [huntouched] at hrs
    obtain ⟨b, hb, rfl⟩ := List.mem_map.mp hrs
    simp only [translateBatch] at hkv
    cases hp : b.process with
    | none =>
      rw [hp] at hkv
      simp [translateProcess] at hkv
    | some p =>
      rw [hp] at hkv
      simp only [translateProcess] at hkv
      rcases List.mem_append.mp hkv with hin | hin
      · by_cases hsn : p.serviceName = ""
        · rw [if_pos hsn] at hin
          simp at hin
        · rw [if_neg hsn] at hin
          simp only [List.mem_singleton] at hin
          rw [hin]
          show serviceNameKey ≠ accessTokenKey
          decide
      · exact hclean b hb p hp kv hin

/-- Witness for C8: with passthrough disabled the fixture payload is left
untouched, and with passthrough enabled the single resource of the
fixture payload carries the token attribute. -/
theorem claim_C8_token_all_or_nothing_witness :
    applyTokenPassthrough { accessTokenPassthrough := false } "MyAccessToken"
        (protoToTraces [grpcFixture testNow]) = protoToTraces [grpcFixture testNow]
    ∧ { key := accessTokenKey, value := TagValue.strV "MyAccessToken" } ∈
        ((applyTokenPassthrough { accessTokenPassthrough := true } "MyAccessToken"
          (protoToTraces [grpcFixture testNow])).headD emptyResourceSpans).resource.attributes := by
  constructor
  · exact ((claim_C8_token_all_or_nothing { accessTokenPassthrough := false }
      "MyAccessToken" [grpcFixture testNow]).2 (Or.inl rfl)).1
  · exact (claim_C8_token_all_or_nothing { accessTokenPassthrough := true }
      "MyAccessToken" [grpcFixture testNow]).1 rfl (by decide)
      ((applyTokenPassthrough { accessTokenPassthrough := true } "MyAccessToken"
        (protoToTraces [grpcFixture testNow])).headD emptyResourceSpans) (by decide)

/-- C9: a content-encoding token other than absent, gzip or zstd makes
the codec selector fail with the unsupported-encoding error, the
endpoint answer 400, and no payload reach the consumer. -/
theorem claim_C9_unsupported_encoding (enc token : String) (body : Bytes) (cfg : Config)
    (h1 : enc ≠ "") (h2 : enc ≠ "gzip") (h3 : enc ≠ "zstd") :
    decompressBody enc body = Except.error SapmError.unsupportedEncoding
    ∧ handleRequest cfg (mkSapmRequest enc token body) = (400, none) := by
  have hd : decompressBody enc body = Except.error SapmError.unsupportedEncoding := by
    unfold decompressBody
    rw [if_neg h1, if_neg h2, if_neg h3]
  refine ⟨hd, ?_⟩
  simp [handleRequest, mkSapmRequest, traceEndpointV2, contentTypeHeaderValue, hd]

/-- Witness for C9 at the concrete token "deflate". -/
theorem claim_C9_unsupported_encoding_witness :
    decompressBody "deflate" [1, 2, 3] = Except.error SapmError.unsupportedEncoding
    ∧ handleRequest { accessTokenPassthrough := false }
        (mkSapmRequest "deflate" "" [1, 2, 3]) = (400, none) :=
  claim_C9_unsupported_encoding "deflate" "" [1, 2, 3] { accessTokenPassthrough := false }
    (by decide) (by decide) (by decide)

/-- C10: a span whose tags are only the two reserved status keys and a
boolean "error" tag translates to a span with an empty attribute map —
the status tags are consumed by status derivation, not copied. -/
theorem claim_C10_status_tags_consumed (s : Span)
    (h : ∀ kv ∈ s.tags, kv.key = otelStatusCode ∨ kv.key = otelStatusDescription ∨
        (kv.key = "error" ∧ ∃ b, kv.value = TagValue.boolV b)) :
    (translateSpan s).attributes = [] := by
  simp only [translateSpan, spanAttributes]
  rw [List.filter_eq_nil_iff]
  intro kv hkv
  rcases h kv hkv with h1 | h1 | ⟨h1, b, h2⟩
  · simp [isStatusTag, h1]
  · simp [isStatusTag, h1]
  · simp [isStatusTag, h1, h2, otelStatusCode, otelStatusDescription]

/-- Witness for C10 at the fixture-like span whose tags are exactly the
two reserved status tags and the boolean error tag. -/
theorem claim_C10_status_tags_consumed_witness :
    (translateSpan statusOnlySpan).attributes = [] :=
  claim_C10_status_tags_consumed statusOnlySpan (by decide)
